import Mathlib

/-!
# Verification of the sidechainnet build-parameter optimization loop

Shallow embedding of `sidechainnet/research/build_parameter_optim/optimize_build_params.py`
and `sidechainnet/research/openfold/openfold_loss.py`.

Torch tensors are modelled elementwise: a `Tensor α` carries one representative value of
type `α` together with the two autograd attributes relevant to the claims
(`requiresGrad`, `isLeaf`).  Elementwise operations (`sin`, `cos`, `atan2`) propagate
`requiresGrad` exactly as torch does: the result of an operation requires grad iff some
input does, and is a leaf iff it does not require grad; `requires_grad_()` sets the flag
in place (on these freshly-built tensors this matches torch, where in-place flag setting
is permitted on leaves).

The trigonometric value operations are abstracted into a `TrigOps α` record so that the
store manipulation code is executable for any value type; the real instantiation
(`realOps`, with `atan2 y x = Complex.arg (x + y*I)`) is used for the analytic claims.
-/

namespace SCNOpt

/-- Elementwise model of a torch tensor: a value plus the autograd flags. -/
structure Tensor (α : Type) where
  val : α
  requiresGrad : Bool
  isLeaf : Bool
  deriving DecidableEq

/-- A fresh tensor as produced by the build-parameter table: no grad, a leaf. -/
def Tensor.leaf {α : Type} (v : α) : Tensor α :=
  ⟨v, false, true⟩

/-- Elementwise unary torch op: requires grad iff the input does; leaf iff not. -/
def Tensor.unary {α : Type} (f : α → α) (t : Tensor α) : Tensor α :=
  ⟨f t.val, t.requiresGrad, !t.requiresGrad⟩

/-- Elementwise binary torch op (e.g. `torch.atan2`). -/
def Tensor.binary {α : Type} (f : α → α → α) (s t : Tensor α) : Tensor α :=
  ⟨f s.val t.val, s.requiresGrad || t.requiresGrad, !(s.requiresGrad || t.requiresGrad)⟩

/-- Model of requires_grad_(): mark the tensor as gradient-tracked, in place. -/
def Tensor.requiresGrad_ {α : Type} (t : Tensor α) : Tensor α :=
  { t with requiresGrad := true }

/-- The value-level trigonometric operations used by the embedding. -/
structure TrigOps (α : Type) where
  sin : α → α
  cos : α → α
  atan2 : α → α → α

/-- The real-valued instantiation: `atan2 y x` is the argument of the complex
number `x + y*I`, the two-argument arctangent. -/
noncomputable def realOps : TrigOps ℝ :=
  ⟨Real.sin, Real.cos, fun y x => Complex.arg (x + y * Complex.I)⟩

/-- The three per-anchor parameter groups of a `build_params` dictionary entry. -/
inductive ParamKey
  | bond_lengths
  | thetas
  | chis
  deriving DecidableEq

/-- The three canonical anchor (root) atoms, iterated in the order N, CA, C. -/
inductive RootAtom
  | N
  | CA
  | C
  deriving DecidableEq

/-- The fixed anchor-atom iteration order used by every loop in the source. -/
def rootAtoms : List RootAtom :=
  [RootAtom.N, RootAtom.CA, RootAtom.C]

/-- The entry of one anchor atom in the `build_params` dictionary.  The `sthetas`/`cthetas`
(resp. `schis`/`cchis`) fields are the stored sine/cosine pairs; `thetas`/`chis` are the
raw-angle tensors, overwritten during `__init__` when the group is selected. -/
structure AnchorParams (α : Type) where
  bond_lengths : Tensor α
  sthetas : Tensor α
  cthetas : Tensor α
  thetas : Tensor α
  schis : Tensor α
  cchis : Tensor α
  chis : Tensor α
  deriving DecidableEq

/-- The full `build_params` dictionary: one `AnchorParams` per root atom. -/
structure BuildParams (α : Type) where
  N : AnchorParams α
  CA : AnchorParams α
  C : AnchorParams α
  deriving DecidableEq

def BuildParams.get {α : Type} (bp : BuildParams α) : RootAtom → AnchorParams α
  | RootAtom.N => bp.N
  | RootAtom.CA => bp.CA
  | RootAtom.C => bp.C

def BuildParams.set {α : Type} (bp : BuildParams α) : RootAtom → AnchorParams α → BuildParams α
  | RootAtom.N, a => { bp with N := a }
  | RootAtom.CA, a => { bp with CA := a }
  | RootAtom.C, a => { bp with C := a }

/-- Reading `build_params[root_atom][param_key]` for the three optimizable keys. -/
def AnchorParams.read {α : Type} (ap : AnchorParams α) : ParamKey → Tensor α
  | ParamKey.bond_lengths => ap.bond_lengths
  | ParamKey.thetas => ap.thetas
  | ParamKey.chis => ap.chis

/-- Writing `build_params[root_atom][param_key] = t` for the three optimizable keys. -/
def AnchorParams.write {α : Type} (ap : AnchorParams α) : ParamKey → Tensor α → AnchorParams α
  | ParamKey.bond_lengths, t => { ap with bond_lengths := t }
  | ParamKey.thetas, t => { ap with thetas := t }
  | ParamKey.chis, t => { ap with chis := t }

/-- The list `self.keys_to_optimize` as assembled by `BuildParamOptimizer.__init__` from the three
constructor flags, in the fixed order bond_lengths, thetas, chis. -/
def keysToOptimize (opt_bond_lengths opt_thetas opt_chis : Bool) : List ParamKey :=
  (if opt_bond_lengths then [ParamKey.bond_lengths] else []) ++
    (if opt_thetas then [ParamKey.thetas] else []) ++
      (if opt_chis then [ParamKey.chis] else [])

/-- The `__init__` loop that creates raw-angle tensors from the stored sin/cos values
(`build_params[root]["thetas"] = torch.atan2(sthetas, cthetas)`, same for chis),
for one anchor. -/
def initAnchorAngles {α : Type} (ops : TrigOps α) (keys : List ParamKey)
    (ap : AnchorParams α) : AnchorParams α :=
  let ap1 := if ParamKey.thetas ∈ keys then
    { ap with thetas := Tensor.binary ops.atan2 ap.sthetas ap.cthetas } else ap
  if ParamKey.chis ∈ keys then
    { ap1 with chis := Tensor.binary ops.atan2 ap1.schis ap1.cchis } else ap1

/-- The angle-creation part of `BuildParamOptimizer.__init__` (lines 45-53). -/
def initAngles {α : Type} (ops : TrigOps α) (keys : List ParamKey)
    (bp : BuildParams α) : BuildParams α :=
  { N := initAnchorAngles ops keys bp.N
    CA := initAnchorAngles ops keys bp.CA
    C := initAnchorAngles ops keys bp.C }

/-- The flattening order of `create_param_list_from_build_params` /
`update_complete_build_params_with_optimized_params`: anchor order `[N, CA, C]`
crossed with the (filtered) key order. -/
def paramSlots (keys : List ParamKey) : List (RootAtom × ParamKey) :=
  rootAtoms.flatMap fun a => keys.map fun k => (a, k)

/-- Model of `BuildParamOptimizer.create_param_list_from_build_params`: iterate anchors × keys,
call `requires_grad_()` on each selected tensor (mutating the store) and append it to
the flat parameter list.  Returns the mutated store together with the list. -/
def create_param_list_from_build_params {α : Type} (keys : List ParamKey)
    (bp : BuildParams α) : BuildParams α × List (Tensor α) :=
  (paramSlots keys).foldl
    (fun acc s =>
      let t := ((acc.1.get s.1).read s.2).requiresGrad_
      (acc.1.set s.1 ((acc.1.get s.1).write s.2 t), acc.2 ++ [t]))
    (bp, [])

/-- Model of `BuildParamOptimizer.to_sin_cos`: convert an angle tensor to its sin and cos. -/
def to_sin_cos {α : Type} (ops : TrigOps α) (t : Tensor α) : Tensor α × Tensor α :=
  (Tensor.unary ops.sin t, Tensor.unary ops.cos t)

/-- One slot of the scatter loop body of
`update_complete_build_params_with_optimized_params`. -/
def scatterSlot {α : Type} (ops : TrigOps α) (bp : BuildParams α)
    (s : RootAtom × ParamKey) (t : Tensor α) : BuildParams α :=
  match s with
  | (a, ParamKey.thetas) =>
      let sc := to_sin_cos ops t
      bp.set a { bp.get a with sthetas := sc.1, cthetas := sc.2 }
  | (a, ParamKey.chis) =>
      let sc := to_sin_cos ops t
      bp.set a { bp.get a with schis := sc.1, cchis := sc.2 }
  | (a, ParamKey.bond_lengths) =>
      bp.set a { bp.get a with bond_lengths := t }

/-- Model of `BuildParamOptimizer.update_complete_build_params_with_optimized_params`: consume the
flat optimized list positionally, in the identical anchors × keys order, writing angles
back as sin/cos pairs and bond lengths verbatim. -/
def update_complete_build_params_with_optimized_params {α : Type} (ops : TrigOps α)
    (keys : List ParamKey) (bp : BuildParams α) (optimized_params : List (Tensor α)) :
    BuildParams α :=
  ((paramSlots keys).zip optimized_params).foldl
    (fun b p => scatterSlot ops b p.1 p.2) bp

/-! ## The SGD/Adam optimization loop of `BuildParamOptimizer.optimize`

The energy evaluation and the optimizer update are external differentiable collaborators
(OpenMM force field, torch autograd); following the spec boundary they are modelled as
oracles: `L i` is the float loss observed at iteration `i` and `P i` is the value of the
parameter list `to_optim` during iteration `i` (`opt.step()` at the end of iteration `i`
produces `P (i+1)`).  Float losses are modelled as rationals.  The state below carries
exactly the loop-local variables of the source (lines 148-185); `stoppedEarly` records
that the `break` statement executed, after which nothing further runs. -/

/-- Loop-local state of the first-order (`SGD`/`adam`) branch of `optimize`. -/
structure SgdState (σ : Type) where
  best_loss : Option ℚ
  best_params_so_far : Option σ
  counter : ℕ
  stoppedEarly : Bool
  losses : List ℚ
  itersCompleted : ℕ
  deriving DecidableEq

/-- Initial loop state (`best_loss = None`, `best_params_so_far = None`, `counter = 0`). -/
def sgdInit (σ : Type) : SgdState σ :=
  { best_loss := none, best_params_so_far := none, counter := 0,
    stoppedEarly := false, losses := [], itersCompleted := 0 }

/-- One iteration of the SGD/Adam loop body (source lines 153-185), given the current
parameter snapshot `params` (what `copy.deepcopy(to_optim)` would capture) and the
observed loss `lossnp`.  If the `break` already ran, the iteration does not execute. -/
def sgdIter {σ : Type} (patience : ℕ) (epsilon : ℚ) (s : SgdState σ)
    (params : σ) (lossnp : ℚ) : SgdState σ :=
  if s.stoppedEarly then s
  else
    match s.best_loss with
    | none =>
        { best_loss := some lossnp, best_params_so_far := some params, counter := 0,
          stoppedEarly := false, losses := s.losses ++ [lossnp],
          itersCompleted := s.itersCompleted + 1 }
    | some best =>
        if lossnp < best ∧ |best - lossnp| > epsilon then
          { best_loss := some lossnp, best_params_so_far := some params, counter := 0,
            stoppedEarly := false, losses := s.losses ++ [lossnp],
            itersCompleted := s.itersCompleted + 1 }
        else if s.counter > patience then
          { s with stoppedEarly := true }
        else if s.counter < patience then
          { s with counter := s.counter + 1
                   losses := s.losses ++ [lossnp]
                   itersCompleted := s.itersCompleted + 1 }
        else
          { s with losses := s.losses ++ [lossnp]
                   itersCompleted := s.itersCompleted + 1 }

/-- The full SGD/Adam loop: `for i in tqdm(range(steps))` over `sgdIter`. -/
def sgdLoop {σ : Type} (patience : ℕ) (epsilon : ℚ) (P : ℕ → σ) (L : ℕ → ℚ)
    (steps : ℕ) : SgdState σ :=
  (List.range steps).foldl (fun s i => sgdIter patience epsilon s (P i) (L i)) (sgdInit σ)

/-- Python runtime errors reachable from `optimize`. -/
inductive PyError
  | unboundLocalError
  | typeError
  deriving DecidableEq

/-- Model of `BuildParamOptimizer.optimize(opt, lr, steps)`.  The constants `patience = 20` and
`epsilon = 1e-4` are literals of the source.  On the `LBFGS` path (and on any strategy
name other than `SGD`/`adam`), the loop body never assigns the local
`best_params_so_far`, so the unconditional final statement
`self.update_complete_build_params_with_optimized_params(best_params_so_far)` raises
`UnboundLocalError`; on the SGD/Adam path with `best_params_so_far` still `None`
(only possible with `steps = 0`) that same call subscripts `None` and raises
`TypeError`. -/
def optimize {α : Type} (ops : TrigOps α) (keys : List ParamKey) (bp : BuildParams α)
    (P : ℕ → List (Tensor α)) (L : ℕ → ℚ) (opt : String) (steps : ℕ) :
    Except PyError (BuildParams α) :=
  if opt = "LBFGS" then
    Except.error PyError.unboundLocalError
  else if opt = "SGD" ∨ opt = "adam" then
    let s := sgdLoop 20 (1 / 10000) P L steps
    match s.best_params_so_far with
    | none => Except.error PyError.typeError
    | some best =>
        Except.ok (update_complete_build_params_with_optimized_params ops keys bp best)
  else
    Except.error PyError.unboundLocalError

end SCNOpt

namespace OpenFoldLoss

/-! ## `openfold_loss.py`: batch energy aggregation and per-protein transforms

A protein is modelled by the data the aggregation inspects: its residue sequence (so
`"X" in protein.seq` and `len(protein)` are meaningful).  The OpenMM energy of a
resolvable protein is an oracle `E : SCNProtein → ℚ`, and `torch.exp` is an oracle
`exp : ℚ → ℚ` (the transform claims are about how these values are combined, not about
the transcendental functions themselves). -/

/-- The protein data inspected by the batch aggregation. -/
structure SCNProtein where
  seq : List Char
  deriving DecidableEq

/-- Model of `len(protein)`: the number of residues. -/
def SCNProtein.len (p : SCNProtein) : ℕ :=
  p.seq.length

/-- The unknown-residue symbol `'X'`. -/
def unknownResidue : Char := 'X'

/-- Error signalled by the energy evaluator on an unresolvable protein. -/
inductive EnergyError
  | skippedResidue
  deriving DecidableEq

/-- Modelled from the spec: `OpenMMEnergyH.apply` (from `sidechainnet.utils.openmm_loss`,
not part of the given sources).  "Evaluation on any protein containing an
unresolved/unknown residue symbol must be skipped (signals `SkippedResidueError`, not
fatal) — such residues have no defined force-field parameters"; on a resolvable protein
it returns the differentiable OpenMM energy, here the oracle `E`. -/
def OpenMMEnergyH.apply (E : SCNProtein → ℚ) (p : SCNProtein) : Except EnergyError ℚ :=
  if p.seq.contains unknownResidue then Except.error EnergyError.skippedResidue
  else Except.ok (E p)

/-- Model of `generate_scnproteins_from_model_reps`: one `Option` per batch element, `none`
(`yield None`) when the sequence contains an unknown residue.  The tensor-marshalling
that builds each protein from the model input/output dictionaries is out-of-scope glue
(spec §1); the batch is given directly as the resulting proteins. -/
def generate_scnproteins_from_model_reps (batch : List SCNProtein) :
    List (Option SCNProtein) :=
  batch.map fun protein =>
    if protein.seq.contains unknownResidue then none else some protein

/-- The optional-transform flags and parameters of `openmm_loss`. -/
structure LossOptions where
  scale_by_length : Bool
  modified_sigmoid : Bool
  modified_sigmoid_params : ℚ × ℚ × ℚ × ℚ
  add_relu : Bool
  deriving DecidableEq

/-- The default option values of `openmm_loss`. -/
def defaultOptions : LossOptions :=
  { scale_by_length := false, modified_sigmoid := false,
    modified_sigmoid_params := (1, 1, 1, 1), add_relu := false }

/-- The squashing formula `(1/a + torch.exp(-(d*e+b)/c))**(-1) - (a-1)`. -/
def modifiedSigmoid (exp : ℚ → ℚ) (a b c d e : ℚ) : ℚ :=
  (1 / a + exp (-(d * e + b) / c))⁻¹ - (a - 1)

/-- The per-protein body of the aggregation loop of `openmm_loss` (source lines 64-84),
threading the accumulator `(total_energy, total_energy_raw)`. -/
def openmm_loss_body (exp : ℚ → ℚ) (opts : LossOptions) (E : SCNProtein → ℚ)
    (acc : ℚ × ℚ) (protein : SCNProtein) : Except EnergyError (ℚ × ℚ) :=
  if protein.seq.contains unknownResidue then Except.ok acc
  else do
    let protein_energy ← OpenMMEnergyH.apply E protein
    let protein_energy_raw := protein_energy
    let total_energy_raw := acc.2 + protein_energy_raw
    let protein_energy :=
      if opts.scale_by_length then protein_energy / (protein.len : ℚ) else protein_energy
    let relu_component := protein_energy * (1 / 10 ^ 12)
    let protein_energy :=
      if opts.modified_sigmoid then
        modifiedSigmoid exp opts.modified_sigmoid_params.1 opts.modified_sigmoid_params.2.1
          opts.modified_sigmoid_params.2.2.1 opts.modified_sigmoid_params.2.2.2
          protein_energy
      else protein_energy
    let protein_energy :=
      if opts.add_relu then protein_energy + relu_component else protein_energy
    Except.ok (acc.1 + protein_energy, total_energy_raw)

/-- Model of `openmm_loss`: filter the generated proteins (`if p is not None`), then fold the
per-protein energy aggregation.  Returns `(total_energy, total_energy_raw)`; the two
protein lists also returned by the source carry no energy information and are omitted. -/
def openmm_loss (exp : ℚ → ℚ) (opts : LossOptions) (E : SCNProtein → ℚ)
    (batch : List SCNProtein) : Except EnergyError (ℚ × ℚ) :=
  let scn_proteins := (generate_scnproteins_from_model_reps batch).filterMap id
  scn_proteins.foldlM (openmm_loss_body exp opts E) (0, 0)

end OpenFoldLoss


namespace OpenFoldLoss

/-- The per-protein energy transform written as the three-step composition of the spec
(refinement target for the transform-order claim): (1) divide by the residue count when
length-scaling is requested; (2) squash with the modified sigmoid when requested;
(3) add `10^-12` times the pre-squash (post-length-scaling) energy when the regularizer
is requested. -/
def specEnergyTransform (exp : ℚ → ℚ) (opts : LossOptions) (E : SCNProtein → ℚ)
    (p : SCNProtein) : ℚ :=
  let step1 := if opts.scale_by_length then E p / (p.len : ℚ) else E p
  let step2 :=
    if opts.modified_sigmoid then
      modifiedSigmoid exp opts.modified_sigmoid_params.1 opts.modified_sigmoid_params.2.1
        opts.modified_sigmoid_params.2.2.1 opts.modified_sigmoid_params.2.2.2 step1
    else step1
  if opts.add_relu then step2 + 1 / 10 ^ 12 * step1 else step2

/-- Concrete fixture: a one-residue alanine-like protein. -/
def proteinA : SCNProtein := ⟨['A']⟩

/-- Concrete fixture: a one-residue glycine-like protein. -/
def proteinG : SCNProtein := ⟨['G']⟩

/-- Concrete fixture: a protein containing the unknown residue symbol. -/
def proteinX : SCNProtein := ⟨['A', 'X']⟩

end OpenFoldLoss

namespace SCNOpt

/-- Rational stand-in trigonometric operations for concrete tests of the store plumbing
and autograd flags, which do not depend on the value-level functions. -/
def testOps : TrigOps ℚ :=
  ⟨fun q => q, fun q => q, fun y x => y - x⟩

/-- A concrete fresh anchor entry, as the default build-parameter table would provide:
every tensor a non-gradient leaf. -/
def exampleAnchor : AnchorParams ℚ :=
  { bond_lengths := Tensor.leaf 1, sthetas := Tensor.leaf 0, cthetas := Tensor.leaf 1,
    thetas := Tensor.leaf 0, schis := Tensor.leaf 1, cchis := Tensor.leaf 0,
    chis := Tensor.leaf 0 }

/-- A concrete fresh parameter store over ℚ. -/
def exampleBP : BuildParams ℚ :=
  ⟨exampleAnchor, exampleAnchor, exampleAnchor⟩

/-- Modelled from the spec: the default parameter table (`get_all_atom_build_params`,
external to the given sources) stores, per anchor, bond lengths and the sine/cosine
pairs of underlying default angles, all as fresh non-gradient leaf tensors.  `bl`, `th`,
`ch` give the underlying values; `tTh`, `tCh` are the initial contents of the raw-angle
slots (irrelevant placeholders, overwritten by `__init__` when the group is selected). -/
noncomputable def storeOfAngles (bl th ch tTh tCh : RootAtom → ℝ) : BuildParams ℝ :=
  { N :=
      { bond_lengths := Tensor.leaf (bl RootAtom.N)
        sthetas := Tensor.leaf (Real.sin (th RootAtom.N))
        cthetas := Tensor.leaf (Real.cos (th RootAtom.N))
        thetas := Tensor.leaf (tTh RootAtom.N)
        schis := Tensor.leaf (Real.sin (ch RootAtom.N))
        cchis := Tensor.leaf (Real.cos (ch RootAtom.N))
        chis := Tensor.leaf (tCh RootAtom.N) }
    CA :=
      { bond_lengths := Tensor.leaf (bl RootAtom.CA)
        sthetas := Tensor.leaf (Real.sin (th RootAtom.CA))
        cthetas := Tensor.leaf (Real.cos (th RootAtom.CA))
        thetas := Tensor.leaf (tTh RootAtom.CA)
        schis := Tensor.leaf (Real.sin (ch RootAtom.CA))
        cchis := Tensor.leaf (Real.cos (ch RootAtom.CA))
        chis := Tensor.leaf (tCh RootAtom.CA) }
    C :=
      { bond_lengths := Tensor.leaf (bl RootAtom.C)
        sthetas := Tensor.leaf (Real.sin (th RootAtom.C))
        cthetas := Tensor.leaf (Real.cos (th RootAtom.C))
        thetas := Tensor.leaf (tTh RootAtom.C)
        schis := Tensor.leaf (Real.sin (ch RootAtom.C))
        cchis := Tensor.leaf (Real.cos (ch RootAtom.C))
        chis := Tensor.leaf (tCh RootAtom.C) } }

end SCNOpt

namespace SCNOpt

/-- Unfolding one iteration of `sgdLoop`. -/
theorem sgdLoop_succ {σ : Type} (patience : ℕ) (epsilon : ℚ) (P : ℕ → σ) (L : ℕ → ℚ)
    (n : ℕ) :
    sgdLoop patience epsilon P L (n + 1) =
      sgdIter patience epsilon (sgdLoop patience epsilon P L n) (P n) (L n) := by
  unfold sgdLoop
  rw [List.range_succ, List.foldl_append]
  rfl

/-- Preservation of the loop invariant by one iteration: from a state whose counter is
within `patience` and which has not stopped, the break branch (`counter > patience`)
cannot fire, exactly one loss is appended, and the best-loss bookkeeping keeps
`best_loss` an observed loss within `epsilon` of every observed loss. -/
theorem sgdIter_inv {σ : Type} (patience : ℕ) (epsilon : ℚ) (heps : 0 ≤ epsilon)
    (s : SgdState σ) (params : σ) (lossnp : ℚ)
    (h1 : s.counter ≤ patience) (h2 : s.stoppedEarly = false)
    (h5 : s.best_loss = none → s.losses = [])
    (h6 : ∀ b, s.best_loss = some b → b ∈ s.losses ∧ ∀ l ∈ s.losses, b ≤ l + epsilon) :
    (sgdIter patience epsilon s params lossnp).counter ≤ patience ∧
    (sgdIter patience epsilon s params lossnp).stoppedEarly = false ∧
    (sgdIter patience epsilon s params lossnp).itersCompleted = s.itersCompleted + 1 ∧
    (sgdIter patience epsilon s params lossnp).losses.length = s.losses.length + 1 ∧
    (∃ b, (sgdIter patience epsilon s params lossnp).best_loss = some b) ∧
    (∀ b, (sgdIter patience epsilon s params lossnp).best_loss = some b →
      b ∈ (sgdIter patience epsilon s params lossnp).losses ∧
      ∀ l ∈ (sgdIter patience epsilon s params lossnp).losses, b ≤ l + epsilon) := by
  unfold sgdIter
  rw [h2]
  simp only [Bool.false_eq_true, if_false]
  cases hb : s.best_loss with
  | none =>
      have hl : s.losses = [] := h5 hb
      simp [hl, heps]
  | some best =>
      dsimp only
      obtain ⟨hmem, hall⟩ := h6 best hb
      by_cases himp : lossnp < best ∧ |best - lossnp| > epsilon
      · rw [if_pos himp]
        refine ⟨Nat.zero_le _, rfl, rfl, by simp, ⟨lossnp, rfl⟩, ?_⟩
        rintro b hb'
        injection hb' with hb'
        subst hb'
        refine ⟨List.mem_append_right _ (List.mem_singleton.mpr rfl), ?_⟩
        intro l hl
        rcases List.mem_append.mp hl with hl | hl
        · exact le_trans (le_of_lt himp.1) (hall l hl)
        · rw [List.mem_singleton.mp hl]
          linarith
      · rw [if_neg himp]
        have hnb : ¬ s.counter > patience := by omega
        rw [if_neg hnb]
        have hba : best ≤ lossnp + epsilon := by
          rcases not_and_or.mp himp with h | h
          · push_neg at h
            linarith
          · push_neg at h
            have := le_of_abs_le h
            linarith
        have hbest : ∀ b, some best = some b →
            b ∈ s.losses ++ [lossnp] ∧ ∀ l ∈ s.losses ++ [lossnp], b ≤ l + epsilon := by
          rintro b hb'
          injection hb' with hb'
          subst hb'
          refine ⟨List.mem_append_left _ hmem, ?_⟩
          intro l hl
          rcases List.mem_append.mp hl with hl | hl
          · exact hall l hl
          · rw [List.mem_singleton.mp hl]
            exact hba
        by_cases hlt : s.counter < patience
        · rw [if_pos hlt]
          exact ⟨by dsimp only; omega, rfl, rfl, by simp, ⟨best, rfl⟩, hbest⟩
        · rw [if_neg hlt]
          exact ⟨by dsimp only; omega, rfl, rfl, by simp, ⟨best, rfl⟩, hbest⟩

/-- The loop invariant, by induction over the step budget: the counter never exceeds
`patience`, the break never runs, every iteration completes and appends its loss, and
`best_loss` (for a nonempty run) is an observed loss within `epsilon` of every observed
loss. -/
theorem sgdLoop_inv {σ : Type} (patience : ℕ) (epsilon : ℚ) (heps : 0 ≤ epsilon)
    (P : ℕ → σ) (L : ℕ → ℚ) (steps : ℕ) :
    (sgdLoop patience epsilon P L steps).counter ≤ patience ∧
    (sgdLoop patience epsilon P L steps).stoppedEarly = false ∧
    (sgdLoop patience epsilon P L steps).itersCompleted = steps ∧
    (sgdLoop patience epsilon P L steps).losses.length = steps ∧
    ((sgdLoop patience epsilon P L steps).best_loss = none → steps = 0) ∧
    (∀ b, (sgdLoop patience epsilon P L steps).best_loss = some b →
      b ∈ (sgdLoop patience epsilon P L steps).losses ∧
      ∀ l ∈ (sgdLoop patience epsilon P L steps).losses, b ≤ l + epsilon) := by
  induction steps with
  | zero =>
      refine ⟨Nat.zero_le _, rfl, rfl, rfl, fun _ => rfl, ?_⟩
      rintro b hb
      simp [sgdLoop, sgdInit] at hb
  | succ n ih =>
      obtain ⟨h1, h2, h3, h4, h5, h6⟩ := ih
      have h5' : (sgdLoop patience epsilon P L n).best_loss = none →
          (sgdLoop patience epsilon P L n).losses = [] := by
        intro hb
        have := h5 hb
        subst this
        exact List.length_eq_zero.mp h4
      rw [sgdLoop_succ]
      obtain ⟨g1, g2, g3, g4, g5, g6⟩ :=
        sgdIter_inv patience epsilon heps (sgdLoop patience epsilon P L n) (P n) (L n)
          h1 h2 h5' h6
      refine ⟨g1, g2, by rw [g3, h3], by rw [g4, h4], ?_, g6⟩
      intro hnone
      obtain ⟨b, hb⟩ := g5
      rw [hnone] at hb
      exact Option.noConfusion hb

/-- C9: in the first-order (SGD/adam) loop the early-stop counter never exceeds
patience (20), because it is incremented only while `counter < patience`; consequently
the break branch (which requires `counter > patience`) is unreachable — the loop never
stops early and always completes the full step budget, for every loss oracle `L` and
parameter oracle `P`. -/
theorem c9_counter_saturates_no_early_stop (σ : Type) (P : ℕ → σ) (L : ℕ → ℚ)
    (steps : ℕ) :
    (sgdLoop 20 (1 / 10000) P L steps).counter ≤ 20 ∧
    (sgdLoop 20 (1 / 10000) P L steps).stoppedEarly = false ∧
    (sgdLoop 20 (1 / 10000) P L steps).itersCompleted = steps := by
  obtain ⟨h1, h2, h3, -, -, -⟩ := sgdLoop_inv 20 (1 / 10000) (by norm_num) P L steps
  exact ⟨h1, h2, h3⟩

/-- C1: behaviour of the code at the failing input.  With a loss oracle constant at `0`,
the plateau starts at the second iteration, so (by the claim and the spec) the loop
should break within patience+1 = 21 iterations of that point, i.e. well before
iteration 30; instead the loop never executes the break (`stoppedEarly = false`),
completes all 30 iterations, and leaves the counter saturated at `patience`. -/
theorem c1_plateau_runs_full_budget :
    (sgdLoop 20 (1 / 10000) (fun _ => ()) (fun _ => (0 : ℚ)) 30).stoppedEarly = false ∧
    (sgdLoop 20 (1 / 10000) (fun _ => ()) (fun _ => (0 : ℚ)) 30).itersCompleted = 30 ∧
    (sgdLoop 20 (1 / 10000) (fun _ => ()) (fun _ => (0 : ℚ)) 30).counter = 20 := by
  decide

/-- C5, counterexample: with losses `1` then `1 - 1/20000` (an improvement smaller than
`epsilon = 1/10000`), `best_loss` after two iterations is `1`, not the minimum
`1 - 1/20000 = 19999/20000` of the observed losses. -/
theorem c5_counterexample :
    (sgdLoop 20 (1 / 10000) (fun _ => ())
        (fun i => if i = 0 then (1 : ℚ) else 1 - 1 / 20000) 2).best_loss = some 1 ∧
    (sgdLoop 20 (1 / 10000) (fun _ => ())
        (fun i => if i = 0 then (1 : ℚ) else 1 - 1 / 20000) 2).losses =
      [1, 19999 / 20000] ∧
    (sgdLoop 20 (1 / 10000) (fun _ => ())
        (fun i => if i = 0 then (1 : ℚ) else 1 - 1 / 20000) 2).best_loss ≠
      some (19999 / 20000) := by
  norm_num [sgdLoop, sgdIter, sgdInit, List.range, List.range.loop, List.foldl, abs]

/-- C5 (amended): for the first-order strategies, after `N ≥ 1` iterations `best_loss`
is one of the `N` observed loss values and is within `epsilon = 1e-4` of every observed
loss — hence `min ≤ best_loss ≤ min + epsilon` where `min` is the minimum observed
loss — but it need not equal the minimum. -/
theorem c5_best_loss_within_epsilon (σ : Type) (P : ℕ → σ) (L : ℕ → ℚ) (steps : ℕ)
    (h : 1 ≤ steps) :
    ∃ b : ℚ, (sgdLoop 20 (1 / 10000) P L steps).best_loss = some b ∧
      b ∈ (sgdLoop 20 (1 / 10000) P L steps).losses ∧
      ∀ l ∈ (sgdLoop 20 (1 / 10000) P L steps).losses, b ≤ l + 1 / 10000 := by
  obtain ⟨-, -, -, -, h5, h6⟩ := sgdLoop_inv 20 (1 / 10000) (by norm_num) P L steps
  cases hb : (sgdLoop 20 (1 / 10000) P L steps).best_loss with
  | none => exact absurd (h5 hb) (by omega)
  | some b =>
      obtain ⟨hmem, hall⟩ := h6 b hb
      exact ⟨b, rfl, hmem, hall⟩

/-- Witness for the amended C5 at a concrete input. -/
theorem c5_witness :
    1 ≤ 1 ∧
    ∃ b : ℚ, (sgdLoop 20 (1 / 10000) (fun _ => ()) (fun _ => (0 : ℚ)) 1).best_loss =
        some b ∧
      b ∈ (sgdLoop 20 (1 / 10000) (fun _ => ()) (fun _ => (0 : ℚ)) 1).losses ∧
      ∀ l ∈ (sgdLoop 20 (1 / 10000) (fun _ => ()) (fun _ => (0 : ℚ)) 1).losses,
        b ≤ l + 1 / 10000 :=
  ⟨le_refl 1, c5_best_loss_within_epsilon Unit (fun _ => ()) (fun _ => 0) 1 (le_refl 1)⟩

end SCNOpt

namespace SCNOpt

/-- C10: for every input, calling `optimize` with a strategy name other than `SGD` or
`adam` — in particular the default `LBFGS` — fails after the step loop with an
undefined-local-variable error, because `best_params_so_far` is assigned only inside the
SGD/Adam branch yet is read by the unconditional final scatter. -/
theorem c10_non_sgd_strategies_raise_unbound_local (α : Type) (ops : TrigOps α)
    (keys : List ParamKey) (bp : BuildParams α) (P : ℕ → List (Tensor α)) (L : ℕ → ℚ)
    (opt : String) (steps : ℕ) (hsgd : opt ≠ "SGD") (hadam : opt ≠ "adam") :
    optimize ops keys bp P L opt steps = Except.error PyError.unboundLocalError := by
  unfold optimize
  by_cases h : opt = "LBFGS"
  · rw [if_pos h]
  · rw [if_neg h, if_neg (not_or.mpr ⟨hsgd, hadam⟩)]

/-- Witness for C10 at the concrete default strategy name. -/
theorem c10_witness :
    ("LBFGS" ≠ "SGD") ∧ ("LBFGS" ≠ "adam") ∧
    optimize testOps (keysToOptimize true true true) exampleBP (fun _ => [])
        (fun _ => 0) "LBFGS" 5 = Except.error PyError.unboundLocalError :=
  ⟨by decide, by decide,
    c10_non_sgd_strategies_raise_unbound_local ℚ testOps (keysToOptimize true true true)
      exampleBP (fun _ => []) (fun _ => 0) "LBFGS" 5 (by decide) (by decide)⟩

/-- C3: behaviour of the code at the failing input.  With the default strategy
`LBFGS`, `optimize` does not end by scattering a best-so-far snapshot and returning
the parameter store: it raises `UnboundLocalError` at the final unconditional scatter,
since `best_params_so_far` is assigned only on the SGD/Adam path. -/
theorem c3_lbfgs_raises_instead_of_returning :
    optimize testOps (keysToOptimize true true true) exampleBP (fun _ => [])
        (fun _ => 0) "LBFGS" 100 = Except.error PyError.unboundLocalError := by
  rfl

end SCNOpt

namespace OpenFoldLoss

/-- Characterization of `openmm_loss`: it never propagates an error, and returns the sum
of the spec-composed per-protein transforms over exactly the unknown-residue-free
proteins of the batch, alongside the sum of their raw (untransformed) energies. -/
theorem openmm_loss_eq_spec (exp : ℚ → ℚ) (opts : LossOptions) (E : SCNProtein → ℚ)
    (batch : List SCNProtein) :
    openmm_loss exp opts E batch =
      Except.ok
        (((batch.filter fun p => !(p.seq.contains unknownResidue)).map
            (specEnergyTransform exp opts E)).sum,
         ((batch.filter fun p => !(p.seq.contains unknownResidue)).map E).sum) := by
  suffices h : ∀ (l : List SCNProtein) (acc : ℚ × ℚ),
      (l.filterMap fun protein =>
          if unknownResidue ∈ protein.seq then none else some protein).foldlM
          (openmm_loss_body exp opts E) acc =
        Except.ok
          (acc.1 + ((l.filter fun p => !decide (unknownResidue ∈ p.seq)).map
              (specEnergyTransform exp opts E)).sum,
           acc.2 + ((l.filter fun p => !decide (unknownResidue ∈ p.seq)).map E).sum) by
    have hb := h batch (0, 0)
    simpa [openmm_loss, generate_scnproteins_from_model_reps, List.filterMap_map,
      Function.comp] using hb
  intro l
  induction l with
  | nil =>
      intro acc
      simp [Except.pure, pure]
  | cons p rest ih =>
      intro acc
      by_cases h : unknownResidue ∈ p.seq
      · simp [List.filterMap_cons, h, List.filter_cons, ih]
      · have hb : openmm_loss_body exp opts E acc p =
            Except.ok (acc.1 + specEnergyTransform exp opts E p, acc.2 + E p) := by
          by_cases hr : opts.add_relu = true <;>
            by_cases hs : opts.scale_by_length = true <;>
              by_cases hm : opts.modified_sigmoid = true <;>
                simp [openmm_loss_body, OpenMMEnergyH.apply, specEnergyTransform, h,
                  hr, hs, hm, mul_comm, Except.instMonad, Except.bind]
        simp [List.filterMap_cons, h, List.filter_cons, hb, ih, add_assoc,
          Except.instMonad, Except.bind]

end OpenFoldLoss

namespace OpenFoldLoss

/-- C6: a batch consisting of one protein with an unknown residue symbol and N proteins
without yields `Except.ok` (the unknown-residue protein is skipped, it does not raise
out of the aggregation) with total energy — and raw total — equal to the sum of the
energies of exactly the N resolvable proteins; the unknown-residue protein contributes
zero.  Stated with the default (transform-free) options of `openmm_loss`. -/
theorem c6_unknown_residue_skipped (exp : ℚ → ℚ) (E : SCNProtein → ℚ)
    (good1 good2 : List SCNProtein) (bad : SCNProtein)
    (hg1 : ∀ p ∈ good1, p.seq.contains unknownResidue = false)
    (hg2 : ∀ p ∈ good2, p.seq.contains unknownResidue = false)
    (hbad : bad.seq.contains unknownResidue = true) :
    openmm_loss exp defaultOptions E (good1 ++ bad :: good2) =
      Except.ok (((good1 ++ good2).map E).sum, ((good1 ++ good2).map E).sum) := by
  rw [openmm_loss_eq_spec]
  have hfun : specEnergyTransform exp defaultOptions E = E := funext fun p => rfl
  have h1 : good1.filter (fun p => !(p.seq.contains unknownResidue)) = good1 :=
    List.filter_eq_self.mpr fun p hp => by simpa using hg1 p hp
  have h2 : good2.filter (fun p => !(p.seq.contains unknownResidue)) = good2 :=
    List.filter_eq_self.mpr fun p hp => by simpa using hg2 p hp
  rw [hfun]
  simp only [List.filter_append, List.filter_cons, hbad, h1, h2]
  simp

/-- Witness for C6 at a concrete batch: energies 1 and 1 for the two resolvable
proteins, with the unknown-residue protein in the middle of the batch. -/
theorem c6_witness :
    openmm_loss (fun q => q) defaultOptions (fun p => (p.len : ℚ))
        ([proteinA] ++ proteinX :: [proteinG]) = Except.ok (2, 2) := by
  have h := c6_unknown_residue_skipped (fun q => q) (fun p => (p.len : ℚ))
    [proteinA] [proteinG] proteinX (by decide) (by decide) (by decide)
  rw [h]
  norm_num [proteinA, proteinG, SCNProtein.len]

/-- C7, counterexample: with length-scaling and squashing off and only the regularizer
requested, on a protein of raw energy `-1` the regularization step adds
`-1 * 10^-12 < 0`: enabling the regularizer strictly decreases the returned loss, so
the step-(3) term is not positive as the claim states. -/
theorem c7_counterexample :
    openmm_loss (fun q => q) { defaultOptions with add_relu := true } (fun _ => (-1 : ℚ))
        [proteinA] = Except.ok (-(1 + 1 / 10 ^ 12), -1) ∧
    openmm_loss (fun q => q) defaultOptions (fun _ => (-1 : ℚ)) [proteinA] =
      Except.ok (-1, -1) ∧
    (-(1 + 1 / 10 ^ 12) : ℚ) < -1 := by
  have hfil : List.filter (fun p => !(p.seq.contains unknownResidue)) [proteinA] =
      [proteinA] := by decide
  refine ⟨?_, ?_, by norm_num⟩
  · rw [openmm_loss_eq_spec, hfil]
    norm_num [specEnergyTransform, defaultOptions, proteinA, modifiedSigmoid]
  · rw [openmm_loss_eq_spec, hfil]
    norm_num [specEnergyTransform, defaultOptions, proteinA]

/-- C7 (amended): for every batch and option set, the per-protein transforms are
composed in the order (1) length-scaling, (2) modified-sigmoid squashing, (3) addition
of a regularization term equal to `10^-12` times the pre-squash (post-length-scaling)
energy — a term positive only when that energy is positive — and the raw untransformed
energy is always returned alongside the transformed total. -/
theorem c7_transform_order (exp : ℚ → ℚ) (opts : LossOptions) (E : SCNProtein → ℚ)
    (batch : List SCNProtein) :
    openmm_loss exp opts E batch =
      Except.ok
        (((batch.filter fun p => !(p.seq.contains unknownResidue)).map
            (specEnergyTransform exp opts E)).sum,
         ((batch.filter fun p => !(p.seq.contains unknownResidue)).map E).sum) :=
  openmm_loss_eq_spec exp opts E batch

end OpenFoldLoss

namespace SCNOpt

/-- C2, counterexample: at the concretely constructed optimizer state (all three key
groups selected), the claimed invariant — the sine/cosine pair carries the
gradient-tracked state while the raw angle tensor is non-gradient — is false: after
`__init__` and `create_param_list_from_build_params`, the stored sine tensor does not
require grad and it is the raw angle tensor that does. -/
theorem c2_counterexample :
    ¬ ((create_param_list_from_build_params (keysToOptimize true true true)
          (initAngles testOps (keysToOptimize true true true) exampleBP)).1.N.sthetas.requiresGrad
            = true ∧
       (create_param_list_from_build_params (keysToOptimize true true true)
          (initAngles testOps (keysToOptimize true true true) exampleBP)).1.N.cthetas.requiresGrad
            = true ∧
       (create_param_list_from_build_params (keysToOptimize true true true)
          (initAngles testOps (keysToOptimize true true true) exampleBP)).1.N.thetas.requiresGrad
            = false) := by
  decide

set_option maxHeartbeats 1600000 in
/-- C2 (amended): for every angular parameter group selected for optimization it is the
raw angle tensor that carries the gradient-tracked state — created once at construction
as `atan2` of the stored sine/cosine pair and then marked `requires_grad_` — while the
sine/cosine tensors are left untouched by extraction and, after scatter-back, are
derived non-leaf views recomputed via `(sin, cos)` of the gradient-tracked angle. -/
theorem c2_raw_angle_carries_grad (α : Type) (ops : TrigOps α) (b t c : Bool)
    (bp0 : BuildParams α) (a : RootAtom) :
    let keys := keysToOptimize b t c
    let pr := create_param_list_from_build_params keys (initAngles ops keys bp0)
    let bp2 := update_complete_build_params_with_optimized_params ops keys pr.1 pr.2
    (ParamKey.thetas ∈ keys →
      (pr.1.get a).thetas =
        (Tensor.binary ops.atan2 (bp0.get a).sthetas (bp0.get a).cthetas).requiresGrad_ ∧
      (pr.1.get a).thetas.requiresGrad = true ∧
      (pr.1.get a).sthetas = (bp0.get a).sthetas ∧
      (pr.1.get a).cthetas = (bp0.get a).cthetas ∧
      (bp2.get a).sthetas = Tensor.unary ops.sin ((pr.1.get a).thetas) ∧
      (bp2.get a).cthetas = Tensor.unary ops.cos ((pr.1.get a).thetas) ∧
      (bp2.get a).sthetas.requiresGrad = true ∧ (bp2.get a).sthetas.isLeaf = false ∧
      (bp2.get a).cthetas.requiresGrad = true ∧ (bp2.get a).cthetas.isLeaf = false) ∧
    (ParamKey.chis ∈ keys →
      (pr.1.get a).chis =
        (Tensor.binary ops.atan2 (bp0.get a).schis (bp0.get a).cchis).requiresGrad_ ∧
      (pr.1.get a).chis.requiresGrad = true ∧
      (pr.1.get a).schis = (bp0.get a).schis ∧
      (pr.1.get a).cchis = (bp0.get a).cchis ∧
      (bp2.get a).schis = Tensor.unary ops.sin ((pr.1.get a).chis) ∧
      (bp2.get a).cchis = Tensor.unary ops.cos ((pr.1.get a).chis) ∧
      (bp2.get a).schis.requiresGrad = true ∧ (bp2.get a).schis.isLeaf = false ∧
      (bp2.get a).cchis.requiresGrad = true ∧ (bp2.get a).cchis.isLeaf = false) := by
  cases b <;> cases t <;> cases c <;> cases a <;>
    (intro keys pr bp2; refine ⟨fun h => ?_, fun h => ?_⟩) <;>
    first
      | exact absurd h (by decide)
      | exact ⟨rfl, rfl, rfl, rfl, rfl, rfl, rfl, rfl, rfl, rfl⟩

/-- Witness for the amended C2 at a concrete instantiation: the raw theta-angle tensor
of anchor `N` requires grad after construction. -/
theorem c2_witness :
    ((create_param_list_from_build_params (keysToOptimize true true true)
        (initAngles testOps (keysToOptimize true true true) exampleBP)).1.get
          RootAtom.N).thetas.requiresGrad = true :=
  ((c2_raw_angle_carries_grad ℚ testOps true true true exampleBP RootAtom.N).1
      (by decide)).2.1

end SCNOpt

namespace SCNOpt

set_option maxHeartbeats 1600000 in
/-- C8: extraction flattens the store in the fixed anchor order `(N, CA, C)` crossed
with the fixed key order (bond_lengths, thetas, chis filtered by `keys_to_optimize`),
marking every extracted tensor as requiring gradient, and the scatter-back consumes the
list in the identical positional order: for every store and key-set, the `i`-th entry of
the list is written back to the `i`-th (anchor, key) slot it was extracted from (angles
as their sin/cos pair, bond lengths verbatim). -/
theorem c8_flattening_order_and_positional_scatter (α : Type) (ops : TrigOps α)
    (b t c : Bool) (bp : BuildParams α) :
    let keys := keysToOptimize b t c
    let pr := create_param_list_from_build_params keys bp
    let out := update_complete_build_params_with_optimized_params ops keys pr.1 pr.2
    pr.2 = (paramSlots keys).map (fun s => ((bp.get s.1).read s.2).requiresGrad_) ∧
    pr.2.all (fun tq => tq.requiresGrad) = true ∧
    pr.2.length = (paramSlots keys).length ∧
    ∀ sq ∈ (paramSlots keys).zip pr.2,
      (sq.1.2 = ParamKey.bond_lengths → (out.get sq.1.1).bond_lengths = sq.2) ∧
      (sq.1.2 = ParamKey.thetas →
        (out.get sq.1.1).sthetas = Tensor.unary ops.sin sq.2 ∧
        (out.get sq.1.1).cthetas = Tensor.unary ops.cos sq.2) ∧
      (sq.1.2 = ParamKey.chis →
        (out.get sq.1.1).schis = Tensor.unary ops.sin sq.2 ∧
        (out.get sq.1.1).cchis = Tensor.unary ops.cos sq.2) := by
  cases b <;> cases t <;> cases c <;>
    (intro keys pr out
     refine ⟨rfl, rfl, rfl, ?_⟩
     intro sq hm
     fin_cases hm <;>
       refine ⟨fun h => ?_, fun h => ?_, fun h => ?_⟩ <;>
       first
         | exact ParamKey.noConfusion h
         | exact rfl
         | exact ⟨rfl, rfl⟩)

end SCNOpt

namespace SCNOpt

/-- Witness for C8 at a concrete instantiation: the first extracted slot
`(N, bond_lengths)` is scattered back to `(N, bond_lengths)`. -/
theorem c8_witness :
    ((update_complete_build_params_with_optimized_params testOps
        (keysToOptimize true true true)
        (create_param_list_from_build_params (keysToOptimize true true true) exampleBP).1
        (create_param_list_from_build_params (keysToOptimize true true true)
          exampleBP).2).get RootAtom.N).bond_lengths =
      exampleBP.N.bond_lengths.requiresGrad_ :=
  ((c8_flattening_order_and_positional_scatter ℚ testOps true true true exampleBP).2.2.2
      ((RootAtom.N, ParamKey.bond_lengths), exampleBP.N.bond_lengths.requiresGrad_)
      (by decide)).1 rfl

/-- The angle `atan2 (sin x) (cos x)`, i.e. the argument of `cos x + sin x * I`, equals `x` up to
an integer multiple of `2π`. -/
theorem exists_int_arg_cos_sin (x : ℝ) :
    ∃ k : ℤ, Complex.arg (↑(Real.cos x) + ↑(Real.sin x) * Complex.I) =
      x + 2 * Real.pi * k :=
  ⟨⌊(Real.pi - x) / (2 * Real.pi)⌋, by
    have h := Complex.arg_cos_add_sin_mul_I_sub x
    rw [← Complex.ofReal_cos, ← Complex.ofReal_sin] at h
    linarith⟩

/-- The modulus of `cos x + sin x * I` (with real entries) is 1. -/
theorem abs_ofReal_cos_add_sin (x : ℝ) :
    Complex.abs (↑(Real.cos x) + ↑(Real.sin x) * Complex.I) = 1 := by
  rw [Complex.ofReal_cos, Complex.ofReal_sin]
  exact Complex.abs_cos_add_sin_mul_I x

/-- The sine of `atan2 (sin x) (cos x)` recovers `sin x` exactly. -/
theorem sin_arg_cos_sin (x : ℝ) :
    Real.sin (Complex.arg (↑(Real.cos x) + ↑(Real.sin x) * Complex.I)) = Real.sin x := by
  rw [Complex.sin_arg, abs_ofReal_cos_add_sin]
  simp [Complex.sin_ofReal_re]

/-- The cosine of `atan2 (sin x) (cos x)` recovers `cos x` exactly. -/
theorem cos_arg_cos_sin (x : ℝ) :
    Real.cos (Complex.arg (↑(Real.cos x) + ↑(Real.sin x) * Complex.I)) = Real.cos x := by
  have hne : (↑(Real.cos x) + ↑(Real.sin x) * Complex.I) ≠ 0 := by
    intro h0
    have h1 := abs_ofReal_cos_add_sin x
    rw [h0] at h1
    simp at h1
  rw [Complex.cos_arg hne, abs_ofReal_cos_add_sin]
  simp [Complex.cos_ofReal_re]

set_option maxHeartbeats 1600000 in
/-- C4: for every key-set `K` (any subset of {bond_lengths, thetas, chis}) and every
store whose sine/cosine entries are the sin/cos of underlying default angles,
scattering the extracted parameter list back into the store reproduces, for every key
in `K` and every anchor: the original bond-length values exactly, and the original
angle values modulo 2π — the raw angle created by `atan2(sin, cos)` equals the original
angle plus an integer multiple of `2π`, and the re-derived sine/cosine pairs equal the
original values exactly. -/
theorem c4_roundtrip_preserves_values (bl th ch tTh tCh : RootAtom → ℝ) (b t c : Bool)
    (a : RootAtom) :
    let keys := keysToOptimize b t c
    let bp0 := storeOfAngles bl th ch tTh tCh
    let pr := create_param_list_from_build_params keys (initAngles realOps keys bp0)
    let bp2 := update_complete_build_params_with_optimized_params realOps keys pr.1 pr.2
    (ParamKey.bond_lengths ∈ keys → (bp2.get a).bond_lengths.val = bl a) ∧
    (ParamKey.thetas ∈ keys →
      (∃ k : ℤ, (pr.1.get a).thetas.val = th a + 2 * Real.pi * k) ∧
      (bp2.get a).sthetas.val = Real.sin (th a) ∧
      (bp2.get a).cthetas.val = Real.cos (th a)) ∧
    (ParamKey.chis ∈ keys →
      (∃ k : ℤ, (pr.1.get a).chis.val = ch a + 2 * Real.pi * k) ∧
      (bp2.get a).schis.val = Real.sin (ch a) ∧
      (bp2.get a).cchis.val = Real.cos (ch a)) := by
  cases b <;> cases t <;> cases c <;> cases a <;>
    (intro keys bp0 pr bp2; refine ⟨fun h => ?_, fun h => ?_, fun h => ?_⟩) <;>
    first
      | exact absurd h (by decide)
      | exact rfl
      | exact ⟨exists_int_arg_cos_sin _, sin_arg_cos_sin _, cos_arg_cos_sin _⟩

/-- Witness for C4 at a concrete instantiation: after the round trip, the bond length
of anchor N is unchanged. -/
theorem c4_witness :
    ((update_complete_build_params_with_optimized_params realOps
        (keysToOptimize true true true)
        (create_param_list_from_build_params (keysToOptimize true true true)
          (initAngles realOps (keysToOptimize true true true)
            (storeOfAngles (fun _ => 1) (fun _ => 0) (fun _ => 0) (fun _ => 0)
              (fun _ => 0)))).1
        (create_param_list_from_build_params (keysToOptimize true true true)
          (initAngles realOps (keysToOptimize true true true)
            (storeOfAngles (fun _ => 1) (fun _ => 0) (fun _ => 0) (fun _ => 0)
              (fun _ => 0)))).2).get RootAtom.N).bond_lengths.val = 1 :=
  (c4_roundtrip_preserves_values (fun _ => 1) (fun _ => 0) (fun _ => 0) (fun _ => 0)
      (fun _ => 0) true true true RootAtom.N).1 (by decide)

end SCNOpt
